import Mathlib

/-!
Shallow embedding of the Graphite value core:
`src/node-graph/graph-craft/src/document/value.rs` (the `TaggedValue` enum
generated by the `tagged_value!` macro, its erasure/recovery functions, its
manual `Hash` implementation built on the `FakeHash` trait, `RenderOutput`)
and `src/desktop/src/render.rs` (`FrameBufferRef`).

Modelling conventions:
- A Rust `f64` is represented by its IEEE-754 bit pattern, a `Nat` below
  `2 ^ 64`.  The code under verification only ever hashes floats through
  `f64::to_bits`, so the bit pattern is the faithful observable.
- A Rust `Hasher` is abstracted as the stream of integer writes fed to it
  (`List Nat`); two values hash identically under every deterministic
  hasher exactly when their streams are equal, and produce different hash
  input streams exactly when their streams differ.
- Rust panics and `unwrap` failures are modelled as `Option.none` /
  dedicated error results, as noted at each definition.
- The `TaggedValue` enum has one macro-generated clause per registered
  variant, all of identical shape; the embedding instantiates the macro for
  a representative subset of the registry that covers every payload shape
  (bare floats, integers, strings, 2D vectors, affine transforms, optional
  floats/vectors, float/integer/vector sequences, fixed float arrays,
  colors, optional colors, fills, blend modes, reference points) together
  with the four hand-written variants `None`, `RenderOutput`,
  `SurfaceFrame` and `EditorApi`, preserving the declaration order of
  `value.rs`.  Payload types whose definitions live outside `src/`
  (`Color`, `Fill`, `BlendMode`, `ReferencePoint`, `SurfaceFrame`,
  `RenderMetadata`, `ImageTexture`, `Image<Color>`, `WasmEditorApi`) are
  modelled from the spec, as documented on each.
-/

/-- IEEE-754 bit pattern of the Rust double `1.0_f64`. -/
def oneBits : Nat := 0x3FF0000000000000

/-- IEEE-754 bit pattern of `1.0_f64 + f64::EPSILON`.  `f64::EPSILON` is
`2 ^ (-52)`, so the sum is exactly representable: it is the double adjacent
to `1.0`, whose bit pattern is `oneBits + 1`. -/
def onePlusEpsilonBits : Nat := 0x3FF0000000000001

/-- IEEE-754 bit pattern of the Rust double `2.0_f64`. -/
def twoBits : Nat := 0x4000000000000000

/-- IEEE-754 bit pattern of a quiet not-a-number double (the pattern
produced by `f64::NAN` on x86-64). -/
def nanBits : Nat := 0x7FF8000000000000

/-- Modelled from the spec: a color with four 8-bit channels (red, green,
blue, alpha).  The concrete `graphene_core::raster::color::Color` struct is
outside `src/`; the spec describes colors through their 6/8-hex-digit RGB
and RGBA channel forms, which this model captures directly. -/
structure Color where
  r : Nat
  g : Nat
  b : Nat
  a : Nat
deriving DecidableEq, Repr

/-- Modelled from the spec: the fixed color palette reachable from the
`Color::<NAME>` constant syntax of `from_primitive_string`. -/
def Color.BLACK : Color := ⟨0, 0, 0, 255⟩

def Color.WHITE : Color := ⟨255, 255, 255, 255⟩

def Color.RED : Color := ⟨255, 0, 0, 255⟩

def Color.GREEN : Color := ⟨0, 255, 0, 255⟩

def Color.BLUE : Color := ⟨0, 0, 255, 255⟩

def Color.YELLOW : Color := ⟨255, 255, 0, 255⟩

def Color.CYAN : Color := ⟨0, 255, 255, 255⟩

def Color.MAGENTA : Color := ⟨255, 0, 255, 255⟩

def Color.TRANSPARENT : Color := ⟨0, 0, 0, 0⟩

/-- `glam::DVec2`, a 2D vector of doubles; each component is a bit
pattern. -/
structure DVec2 where
  x : Nat
  y : Nat
deriving DecidableEq, Repr

/-- `DVec2::new(x, y)`. -/
def DVec2.new (x y : Nat) : DVec2 := ⟨x, y⟩

/-- `DVec2::to_array`, the two components in order. -/
def DVec2.to_array (v : DVec2) : List Nat := [v.x, v.y]

/-- `glam::DAffine2`, a 2D affine transform; `to_cols_array` exposes six
doubles, modelled as their bit patterns. -/
structure DAffine2 where
  m00 : Nat
  m01 : Nat
  m10 : Nat
  m11 : Nat
  tx : Nat
  ty : Nat
deriving DecidableEq, Repr

/-- `DAffine2::to_cols_array`, the six components in column order. -/
def DAffine2.to_cols_array (m : DAffine2) : List Nat :=
  [m.m00, m.m01, m.m10, m.m11, m.tx, m.ty]

/-- The Rust array payload `[f64; 4]` of the `F64Array4` variant. -/
structure F64Array4 where
  e0 : Nat
  e1 : Nat
  e2 : Nat
  e3 : Nat
deriving DecidableEq, Repr

/-- Elements of a `[f64; 4]` in order. -/
def F64Array4.toList (a : F64Array4) : List Nat := [a.e0, a.e1, a.e2, a.e3]

/-- Modelled from the spec: `graphene_core::vector::style::Fill` (outside
`src/`), the paint-fill value; the spec's color grammar wraps a parsed
color as a solid fill, so the model carries the no-fill and solid-color
constructors. -/
inductive Fill where
  | NoFill : Fill
  | Solid (c : Color) : Fill
deriving DecidableEq, Repr

/-- `Fill::solid(color)`. -/
def Fill.solid (c : Color) : Fill := Fill.Solid c

/-- Modelled from the spec: `graphene_core::blending::BlendMode` (outside
`src/`), an enumeration of blend modes; a representative subset. -/
inductive BlendMode where
  | Normal : BlendMode
  | Multiply : BlendMode
  | Darken : BlendMode
  | Screen : BlendMode
deriving DecidableEq, Repr

/-- Modelled from the spec: the display name of a blend mode, used by
`to_primitive_string` through `BlendMode`'s `Display` implementation. -/
def BlendMode.displayName : BlendMode → String
  | .Normal => "Normal"
  | .Multiply => "Multiply"
  | .Darken => "Darken"
  | .Screen => "Screen"

/-- `graphene_core::transform::ReferencePoint`: the named positions matched
by `to_reference_point` in `value.rs` (the enum itself is outside `src/`;
its variant set is exactly the set named by that match). -/
inductive ReferencePoint where
  | RPNone : ReferencePoint
  | TopLeft : ReferencePoint
  | TopCenter : ReferencePoint
  | TopRight : ReferencePoint
  | CenterLeft : ReferencePoint
  | Center : ReferencePoint
  | CenterRight : ReferencePoint
  | BottomLeft : ReferencePoint
  | BottomCenter : ReferencePoint
  | BottomRight : ReferencePoint
deriving DecidableEq, Repr

/-- Modelled from the spec: `graphene_application_io::SurfaceFrame`
(outside `src/`), a platform surface frame, kept opaque behind an
identifier. -/
structure SurfaceFrame where
  id : Nat
deriving DecidableEq, Repr

/-- Modelled from the spec: `graphene_svg_renderer::RenderMetadata`
(outside `src/`), advisory/debug information attached to a render result,
kept opaque. -/
structure RenderMetadata where
  info : Nat
deriving DecidableEq, Repr

/-- `RenderOutputType` from `value.rs`: the discriminated union of render
results.  `ImageTexture` and `Image<Color>` live outside `src/` and are
kept opaque behind identifiers. -/
inductive RenderOutputType where
  | CanvasFrame (s : SurfaceFrame) : RenderOutputType
  | Texture (t : Nat) : RenderOutputType
  | Svg (svg : String) (image_data : List (Nat × Nat)) : RenderOutputType
  | Image (bytes : List Nat) : RenderOutputType
deriving DecidableEq, Repr

/-- `RenderOutput` from `value.rs`: a render result paired with render
metadata. -/
structure RenderOutput where
  data : RenderOutputType
  metadata : RenderMetadata
deriving DecidableEq, Repr

/-- Modelled from the spec: the shared execution-environment handle
`Arc<WasmEditorApi>` (outside `src/`), kept opaque. -/
structure WasmEditorApi where
  handle : Nat
deriving DecidableEq, Repr

/-- Alias for the built-in string type, for use inside the `TaggedValue`
namespace where the `TaggedValue.String` constructor shadows the name. -/
abbrev RustString : Type := String

/-- The `TaggedValue` enum of `value.rs`, instantiated for the modelled
subset of the registry; variant order follows the declaration order of the
source (`None` first, then the registered variants, then `RenderOutput`,
`SurfaceFrame`, `EditorApi`). -/
inductive TaggedValue where
  | None : TaggedValue
  | F64 (x : Nat) : TaggedValue
  | U32 (x : Nat) : TaggedValue
  | U64 (x : Nat) : TaggedValue
  | Bool (b : Bool) : TaggedValue
  | String (s : String) : TaggedValue
  | DVec2 (v : DVec2) : TaggedValue
  | DAffine2 (m : DAffine2) : TaggedValue
  | OptionalF64 (o : Option Nat) : TaggedValue
  | OptionalDVec2 (o : Option DVec2) : TaggedValue
  | VecF64 (xs : List Nat) : TaggedValue
  | VecU64 (xs : List Nat) : TaggedValue
  | VecDVec2 (xs : List DVec2) : TaggedValue
  | F64Array4 (a : F64Array4) : TaggedValue
  | Color (c : Color) : TaggedValue
  | OptionalColor (o : Option Color) : TaggedValue
  | Fill (f : Fill) : TaggedValue
  | BlendMode (b : BlendMode) : TaggedValue
  | ReferencePoint (p : ReferencePoint) : TaggedValue
  | RenderOutput (r : RenderOutput) : TaggedValue
  | SurfaceFrame (s : SurfaceFrame) : TaggedValue
  | EditorApi (api : WasmEditorApi) : TaggedValue
deriving DecidableEq, Repr

/-- A Rust `std::any::TypeId`: the runtime type identity of a payload.
One constructor per concrete payload type appearing in the modelled
registry, plus the reference type used by `ty()` for `EditorApi`, and
`foreign` for any runtime type never registered (carrying its type name,
as `TypeId` comparisons against it all fail uniformly). -/
inductive RTy where
  | unit : RTy
  | f64 : RTy
  | u32 : RTy
  | u64 : RTy
  | bool : RTy
  | string : RTy
  | dvec2 : RTy
  | daffine2 : RTy
  | optF64 : RTy
  | optDVec2 : RTy
  | vecF64 : RTy
  | vecU64 : RTy
  | vecDVec2 : RTy
  | f64array4 : RTy
  | color : RTy
  | optColor : RTy
  | fill : RTy
  | blendMode : RTy
  | referencePoint : RTy
  | renderOutput : RTy
  | surfaceFrame : RTy
  | arcWasmEditorApi : RTy
  | refWasmEditorApi : RTy
  | foreign (name : String) : RTy
deriving DecidableEq, Repr

/-- The Rust type name of a runtime type, as produced by
`std::any::type_name` / `dyn_any::DynAny::type_name` (the exact std
rendering is external; these are its per-type constant values in the
model). -/
def RTy.rustName : RTy → String
  | .unit => "()"
  | .f64 => "f64"
  | .u32 => "u32"
  | .u64 => "u64"
  | .bool => "bool"
  | .string => "alloc::string::String"
  | .dvec2 => "glam::f64::dvec2::DVec2"
  | .daffine2 => "glam::f64::daffine2::DAffine2"
  | .optF64 => "core::option::Option<f64>"
  | .optDVec2 => "core::option::Option<glam::f64::dvec2::DVec2>"
  | .vecF64 => "alloc::vec::Vec<f64>"
  | .vecU64 => "alloc::vec::Vec<u64>"
  | .vecDVec2 => "alloc::vec::Vec<glam::f64::dvec2::DVec2>"
  | .f64array4 => "[f64; 4]"
  | .color => "graphene_core::raster::color::Color"
  | .optColor => "core::option::Option<graphene_core::raster::color::Color>"
  | .fill => "graphene_core::vector::style::Fill"
  | .blendMode => "graphene_core::blending::BlendMode"
  | .referencePoint => "graphene_core::transform::ReferencePoint"
  | .renderOutput => "graph_craft::document::value::RenderOutput"
  | .surfaceFrame => "graphene_application_io::SurfaceFrame"
  | .arcWasmEditorApi => "alloc::sync::Arc<graph_craft::wasm_application_io::WasmEditorApi>"
  | .refWasmEditorApi => "&graph_craft::wasm_application_io::WasmEditorApi"
  | .foreign name => name

/-- A type-erased container: `Box<dyn DynAny>` (owned erasure) and
`Arc<dyn Any + Send + Sync>` (shared erasure) both pair a runtime type
identity with the payload of that type, which is what this sum captures.
`foreign` is an erased value of a runtime type outside the registry. -/
inductive DynBox where
  | unit : DynBox
  | f64 (x : Nat) : DynBox
  | u32 (x : Nat) : DynBox
  | u64 (x : Nat) : DynBox
  | bool (b : Bool) : DynBox
  | string (s : String) : DynBox
  | dvec2 (v : DVec2) : DynBox
  | daffine2 (m : DAffine2) : DynBox
  | optF64 (o : Option Nat) : DynBox
  | optDVec2 (o : Option DVec2) : DynBox
  | vecF64 (xs : List Nat) : DynBox
  | vecU64 (xs : List Nat) : DynBox
  | vecDVec2 (xs : List DVec2) : DynBox
  | f64array4 (a : F64Array4) : DynBox
  | color (c : Color) : DynBox
  | optColor (o : Option Color) : DynBox
  | fill (f : Fill) : DynBox
  | blendMode (b : BlendMode) : DynBox
  | referencePoint (p : ReferencePoint) : DynBox
  | renderOutput (r : RenderOutput) : DynBox
  | surfaceFrame (s : SurfaceFrame) : DynBox
  | arcWasmEditorApi (api : WasmEditorApi) : DynBox
  | foreign (name : String) : DynBox
deriving DecidableEq, Repr

/-- `TypeId` of the value inside an erased container
(`DynAny::type_id` / `<dyn Any>::type_id`). -/
def DynBox.typeId : DynBox → RTy
  | .unit => .unit
  | .f64 _ => .f64
  | .u32 _ => .u32
  | .u64 _ => .u64
  | .bool _ => .bool
  | .string _ => .string
  | .dvec2 _ => .dvec2
  | .daffine2 _ => .daffine2
  | .optF64 _ => .optF64
  | .optDVec2 _ => .optDVec2
  | .vecF64 _ => .vecF64
  | .vecU64 _ => .vecU64
  | .vecDVec2 _ => .vecDVec2
  | .f64array4 _ => .f64array4
  | .color _ => .color
  | .optColor _ => .optColor
  | .fill _ => .fill
  | .blendMode _ => .blendMode
  | .referencePoint _ => .referencePoint
  | .renderOutput _ => .renderOutput
  | .surfaceFrame _ => .surfaceFrame
  | .arcWasmEditorApi _ => .arcWasmEditorApi
  | .foreign name => .foreign name

/-- `DynAny::type_name(input.as_ref())`: the runtime type name of the
value inside the container (dynamic dispatch, so it names the concrete
erased type). -/
def DynBox.typeName (b : DynBox) : String := b.typeId.rustName

/-- `TaggedValue::to_dynany`: erase an owned tagged value into a
`Box<dyn DynAny>`.  One arm per variant, including `EditorApi`. -/
def TaggedValue.to_dynany : TaggedValue → DynBox
  | .None => .unit
  | .F64 x => .f64 x
  | .U32 x => .u32 x
  | .U64 x => .u64 x
  | .Bool b => .bool b
  | .String s => .string s
  | .DVec2 v => .dvec2 v
  | .DAffine2 m => .daffine2 m
  | .OptionalF64 o => .optF64 o
  | .OptionalDVec2 o => .optDVec2 o
  | .VecF64 xs => .vecF64 xs
  | .VecU64 xs => .vecU64 xs
  | .VecDVec2 xs => .vecDVec2 xs
  | .F64Array4 a => .f64array4 a
  | .Color c => .color c
  | .OptionalColor o => .optColor o
  | .Fill f => .fill f
  | .BlendMode b => .blendMode b
  | .ReferencePoint p => .referencePoint p
  | .RenderOutput r => .renderOutput r
  | .SurfaceFrame s => .surfaceFrame s
  | .EditorApi api => .arcWasmEditorApi api

/-- `TaggedValue::to_any`: erase an owned tagged value into an
`Arc<dyn Any + Send + Sync>`.  Same payload-per-variant mapping as
`to_dynany` (both erase the payload; only the container differs, which the
pure model does not observe). -/
def TaggedValue.to_any : TaggedValue → DynBox := TaggedValue.to_dynany

/-- Downcast to `()`: models `downcast::<()>(input).unwrap()`.  The
fallback arm models the `unwrap` panic and is unreachable under the
type-id guard of the caller. -/
def DynBox.getUnit : DynBox → Unit
  | _ => ()

/-- Downcast to `f64` (model of `downcast(input).unwrap()`; the fallback
models the panic, unreachable under the type-id guard). -/
def DynBox.getF64 : DynBox → Nat
  | .f64 x => x
  | _ => 0

/-- Downcast to `u32` (fallback models the `unwrap` panic). -/
def DynBox.getU32 : DynBox → Nat
  | .u32 x => x
  | _ => 0

/-- Downcast to `u64` (fallback models the `unwrap` panic). -/
def DynBox.getU64 : DynBox → Nat
  | .u64 x => x
  | _ => 0

/-- Downcast to `bool` (fallback models the `unwrap` panic). -/
def DynBox.getBool : DynBox → Bool
  | .bool b => b
  | _ => false

/-- Downcast to `String` (fallback models the `unwrap` panic). -/
def DynBox.getString : DynBox → String
  | .string s => s
  | _ => ""

/-- Downcast to `DVec2` (fallback models the `unwrap` panic). -/
def DynBox.getDVec2 : DynBox → DVec2
  | .dvec2 v => v
  | _ => ⟨0, 0⟩

/-- Downcast to `DAffine2` (fallback models the `unwrap` panic). -/
def DynBox.getDAffine2 : DynBox → DAffine2
  | .daffine2 m => m
  | _ => ⟨0, 0, 0, 0, 0, 0⟩

/-- Downcast to `Option<f64>` (fallback models the `unwrap` panic). -/
def DynBox.getOptF64 : DynBox → Option Nat
  | .optF64 o => o
  | _ => none

/-- Downcast to `Option<DVec2>` (fallback models the `unwrap` panic). -/
def DynBox.getOptDVec2 : DynBox → Option DVec2
  | .optDVec2 o => o
  | _ => none

/-- Downcast to `Vec<f64>` (fallback models the `unwrap` panic). -/
def DynBox.getVecF64 : DynBox → List Nat
  | .vecF64 xs => xs
  | _ => []

/-- Downcast to `Vec<u64>` (fallback models the `unwrap` panic). -/
def DynBox.getVecU64 : DynBox → List Nat
  | .vecU64 xs => xs
  | _ => []

/-- Downcast to `Vec<DVec2>` (fallback models the `unwrap` panic). -/
def DynBox.getVecDVec2 : DynBox → List DVec2
  | .vecDVec2 xs => xs
  | _ => []

/-- Downcast to `[f64; 4]` (fallback models the `unwrap` panic). -/
def DynBox.getF64Array4 : DynBox → F64Array4
  | .f64array4 a => a
  | _ => ⟨0, 0, 0, 0⟩

/-- Downcast to `Color` (fallback models the `unwrap` panic). -/
def DynBox.getColor : DynBox → Color
  | .color c => c
  | _ => ⟨0, 0, 0, 0⟩

/-- Downcast to `Option<Color>` (fallback models the `unwrap` panic). -/
def DynBox.getOptColor : DynBox → Option Color
  | .optColor o => o
  | _ => none

/-- Downcast to `Fill` (fallback models the `unwrap` panic). -/
def DynBox.getFill : DynBox → Fill
  | .fill f => f
  | _ => .NoFill

/-- Downcast to `BlendMode` (fallback models the `unwrap` panic). -/
def DynBox.getBlendMode : DynBox → BlendMode
  | .blendMode b => b
  | _ => .Normal

/-- Downcast to `ReferencePoint` (fallback models the `unwrap` panic). -/
def DynBox.getReferencePoint : DynBox → ReferencePoint
  | .referencePoint p => p
  | _ => .RPNone

/-- Downcast to `RenderOutput` (fallback models the `unwrap` panic). -/
def DynBox.getRenderOutput : DynBox → RenderOutput
  | .renderOutput r => r
  | _ => ⟨.Image [], ⟨0⟩⟩

/-- Downcast to `SurfaceFrame` (fallback models the `unwrap` panic). -/
def DynBox.getSurfaceFrame : DynBox → SurfaceFrame
  | .surfaceFrame s => s
  | _ => ⟨0⟩

/-- The arm order of the `try_from_any` / `try_from_std_any_ref` match in
`value.rs`: the unit type first, then each registered variant's payload
type in declaration order, then `RenderOutput` and `SurfaceFrame`.
`Arc<WasmEditorApi>` (the `EditorApi` payload) has no arm. -/
def tryFromAnyOrder : List RTy :=
  [.unit, .f64, .u32, .u64, .bool, .string, .dvec2, .daffine2, .optF64,
   .optDVec2, .vecF64, .vecU64, .vecDVec2, .f64array4, .color, .optColor,
   .fill, .blendMode, .referencePoint, .renderOutput, .surfaceFrame]

/-- `TaggedValue::try_from_any`: match the erased container's `TypeId`
against each arm in the source's order, constructing the matching variant
from the downcast payload on the first hit; otherwise
`Err(format!("Cannot convert {:?} to TaggedValue", DynAny::type_name(..)))`
(`{:?}` on a string slice quotes it). -/
def TaggedValue.try_from_any (input : DynBox) : Except RustString TaggedValue :=
  let x := input.typeId
  if x = .unit then .ok .None
  else if x = .f64 then .ok (.F64 input.getF64)
  else if x = .u32 then .ok (.U32 input.getU32)
  else if x = .u64 then .ok (.U64 input.getU64)
  else if x = .bool then .ok (.Bool input.getBool)
  else if x = .string then .ok (.String input.getString)
  else if x = .dvec2 then .ok (.DVec2 input.getDVec2)
  else if x = .daffine2 then .ok (.DAffine2 input.getDAffine2)
  else if x = .optF64 then .ok (.OptionalF64 input.getOptF64)
  else if x = .optDVec2 then .ok (.OptionalDVec2 input.getOptDVec2)
  else if x = .vecF64 then .ok (.VecF64 input.getVecF64)
  else if x = .vecU64 then .ok (.VecU64 input.getVecU64)
  else if x = .vecDVec2 then .ok (.VecDVec2 input.getVecDVec2)
  else if x = .f64array4 then .ok (.F64Array4 input.getF64Array4)
  else if x = .color then .ok (.Color input.getColor)
  else if x = .optColor then .ok (.OptionalColor input.getOptColor)
  else if x = .fill then .ok (.Fill input.getFill)
  else if x = .blendMode then .ok (.BlendMode input.getBlendMode)
  else if x = .referencePoint then .ok (.ReferencePoint input.getReferencePoint)
  else if x = .renderOutput then .ok (.RenderOutput input.getRenderOutput)
  else if x = .surfaceFrame then .ok (.SurfaceFrame input.getSurfaceFrame)
  else .error ("Cannot convert \"" ++ input.typeName ++ "\" to TaggedValue")

/-- The static type name produced by
`std::any::type_name_of_val(input)` when `input : &dyn Any`: the name of
the reference's static type, not of the erased runtime type. -/
def dynAnyStaticName : String := "dyn core::any::Any"

/-- `TaggedValue::try_from_std_any_ref`: same `TypeId` match cascade as
`try_from_any` (cloning out of the borrowed container instead of
consuming), but the error arm formats
`std::any::type_name_of_val(input)` — the *static* type of the
`&dyn Any` argument — so the message is the same fixed string for every
unmatched runtime type. -/
def TaggedValue.try_from_std_any_ref (input : DynBox) : Except RustString TaggedValue :=
  let x := input.typeId
  if x = .unit then .ok .None
  else if x = .f64 then .ok (.F64 input.getF64)
  else if x = .u32 then .ok (.U32 input.getU32)
  else if x = .u64 then .ok (.U64 input.getU64)
  else if x = .bool then .ok (.Bool input.getBool)
  else if x = .string then .ok (.String input.getString)
  else if x = .dvec2 then .ok (.DVec2 input.getDVec2)
  else if x = .daffine2 then .ok (.DAffine2 input.getDAffine2)
  else if x = .optF64 then .ok (.OptionalF64 input.getOptF64)
  else if x = .optDVec2 then .ok (.OptionalDVec2 input.getOptDVec2)
  else if x = .vecF64 then .ok (.VecF64 input.getVecF64)
  else if x = .vecU64 then .ok (.VecU64 input.getVecU64)
  else if x = .vecDVec2 then .ok (.VecDVec2 input.getVecDVec2)
  else if x = .f64array4 then .ok (.F64Array4 input.getF64Array4)
  else if x = .color then .ok (.Color input.getColor)
  else if x = .optColor then .ok (.OptionalColor input.getOptColor)
  else if x = .fill then .ok (.Fill input.getFill)
  else if x = .blendMode then .ok (.BlendMode input.getBlendMode)
  else if x = .referencePoint then .ok (.ReferencePoint input.getReferencePoint)
  else if x = .renderOutput then .ok (.RenderOutput input.getRenderOutput)
  else if x = .surfaceFrame then .ok (.SurfaceFrame input.getSurfaceFrame)
  else .error ("Cannot convert \"" ++ dynAnyStaticName ++ "\" to TaggedValue")

/-- `graphene_core::TypeDescriptor` as the spec describes it: an opaque
type identity (optional: a descriptor loaded from a document may lack one)
plus a human-readable name. -/
structure TypeDescriptor where
  id : Option RTy
  name : String
deriving DecidableEq, Repr

/-- `graphene_core::Type`: a concrete descriptor, an unbound generic
placeholder, a function signature (input and output), or a future wrapping
an inner descriptor. -/
inductive Ty where
  | Generic (name : String) : Ty
  | Concrete (d : TypeDescriptor) : Ty
  | Fn (inp out : Ty) : Ty
  | Future (t : Ty) : Ty
deriving DecidableEq, Repr

/-- The `concrete!` macro: the canonical concrete descriptor of a runtime
type (its `TypeId` plus its `std::any::type_name`). -/
def concreteOf (t : RTy) : Ty := .Concrete ⟨some t, t.rustName⟩

/-- `TaggedValue::ty()`: the concrete type descriptor of the payload
(`concrete!(&WasmEditorApi)` for `EditorApi`). -/
def TaggedValue.ty : TaggedValue → Ty
  | .None => concreteOf .unit
  | .F64 _ => concreteOf .f64
  | .U32 _ => concreteOf .u32
  | .U64 _ => concreteOf .u64
  | .Bool _ => concreteOf .bool
  | .String _ => concreteOf .string
  | .DVec2 _ => concreteOf .dvec2
  | .DAffine2 _ => concreteOf .daffine2
  | .OptionalF64 _ => concreteOf .optF64
  | .OptionalDVec2 _ => concreteOf .optDVec2
  | .VecF64 _ => concreteOf .vecF64
  | .VecU64 _ => concreteOf .vecU64
  | .VecDVec2 _ => concreteOf .vecDVec2
  | .F64Array4 _ => concreteOf .f64array4
  | .Color _ => concreteOf .color
  | .OptionalColor _ => concreteOf .optColor
  | .Fill _ => concreteOf .fill
  | .BlendMode _ => concreteOf .blendMode
  | .ReferencePoint _ => concreteOf .referencePoint
  | .RenderOutput _ => concreteOf .renderOutput
  | .SurfaceFrame _ => concreteOf .surfaceFrame
  | .EditorApi _ => concreteOf .refWasmEditorApi

/-- `Default::default()` for each registered payload type, as used by
`from_type` (the concrete default values come from external `Default`
implementations; only the constructed variant matters to the claims). -/
def defaultTaggedValueFor : RTy → Option TaggedValue
  | .unit => some .None
  | .f64 => some (.F64 0)
  | .u32 => some (.U32 0)
  | .u64 => some (.U64 0)
  | .bool => some (.Bool false)
  | .string => some (.String "")
  | .dvec2 => some (.DVec2 ⟨0, 0⟩)
  | .daffine2 => some (.DAffine2 ⟨oneBits, 0, 0, oneBits, 0, 0⟩)
  | .optF64 => some (.OptionalF64 none)
  | .optDVec2 => some (.OptionalDVec2 none)
  | .vecF64 => some (.VecF64 [])
  | .vecU64 => some (.VecU64 [])
  | .vecDVec2 => some (.VecDVec2 [])
  | .f64array4 => some (.F64Array4 ⟨0, 0, 0, 0⟩)
  | .color => some (.Color ⟨0, 0, 0, 0⟩)
  | .optColor => some (.OptionalColor none)
  | .fill => some (.Fill .NoFill)
  | .blendMode => some (.BlendMode .Normal)
  | .referencePoint => some (.ReferencePoint .RPNone)
  | _ => none

/-- `TaggedValue::from_type`: `Generic` has no default; a `Concrete`
descriptor must carry a `TypeId` (`concrete_type.id?`), which is matched
against the unit type and then each registered variant's payload type,
yielding that variant's default; unmatched identities yield `None`
(the Rust `None`, not the `TaggedValue::None` variant); `Fn` recurses into
its output and `Future` into its wrapped type. -/
def TaggedValue.from_type : Ty → Option TaggedValue
  | .Generic _ => none
  | .Concrete d =>
    match d.id with
    | none => none
    | some internal_id => defaultTaggedValueFor internal_id
  | .Fn _ out => TaggedValue.from_type out
  | .Future out => TaggedValue.from_type out

/-- `TaggedValue::from_type_or_none`: total default construction,
substituting `TaggedValue::None` when `from_type` has no answer. -/
def TaggedValue.from_type_or_none (input : Ty) : TaggedValue :=
  (TaggedValue.from_type input).getD .None

/-- `FakeHash for f64`: `self.to_bits().hash(state)` — one write of the
raw bit pattern. -/
def hashF64 (x : Nat) : List Nat := [x]

/-- `Hash` for the Rust integer types: one write of the value. -/
def hashUInt (x : Nat) : List Nat := [x]

/-- `Hash for bool`: one write of the byte 0 or 1. -/
def hashBool (b : Bool) : List Nat := [if b then 1 else 0]

/-- `Hash for String`: the byte contents followed by the `0xff`
terminator byte the std implementation writes (bytes modelled by code
points). -/
def hashString (s : String) : List Nat := s.data.map Char.toNat ++ [0xff]

/-- `FakeHash for DVec2`:
`self.to_array().iter().for_each(|x| x.to_bits().hash(state))`. -/
def hashDVec2 (v : DVec2) : List Nat := v.to_array

/-- `FakeHash for DAffine2`:
`self.to_cols_array().iter().for_each(|x| x.to_bits().hash(state))`. -/
def hashDAffine2 (m : DAffine2) : List Nat := m.to_cols_array

/-- `FakeHash for Option<X>`: `1` then the inner hash if present,
otherwise `0`. -/
def hashOpt (inner : α → List Nat) : Option α → List Nat
  | some x => 1 :: inner x
  | none => [0]

/-- `FakeHash for Vec<X>` (and the std slice hash for element types with
an ordinary `Hash`): the length, then each element's hash in order. -/
def hashVec (inner : α → List Nat) (xs : List α) : List Nat :=
  xs.length :: xs.flatMap inner

/-- `FakeHash for [T; N]`: each element's hash in order (no length
prefix — the array length is statically known). -/
def hashArray4 (a : F64Array4) : List Nat := a.toList

/-- Modelled from the spec: the hash of a `Color` (its `Hash`
implementation is outside `src/`), writing the four channels. -/
def hashColor (c : Color) : List Nat := [c.r, c.g, c.b, c.a]

/-- Modelled from the spec: hashes of the remaining external payload
enums/structs (`Fill`, `BlendMode`, `ReferencePoint`, `SurfaceFrame`,
`WasmEditorApi`), each writing its discriminant or identifier. -/
def hashFill : Fill → List Nat
  | .NoFill => [0]
  | .Solid c => 1 :: hashColor c

def hashBlendMode : BlendMode → List Nat
  | .Normal => [0]
  | .Multiply => [1]
  | .Darken => [2]
  | .Screen => [3]

def hashReferencePoint (p : ReferencePoint) : List Nat :=
  [match p with
   | .RPNone => 0
   | .TopLeft => 1
   | .TopCenter => 2
   | .TopRight => 3
   | .CenterLeft => 4
   | .Center => 5
   | .CenterRight => 6
   | .BottomLeft => 7
   | .BottomCenter => 8
   | .BottomRight => 9]

def hashSurfaceFrame (s : SurfaceFrame) : List Nat := [s.id]

def hashWasmEditorApi (api : WasmEditorApi) : List Nat := [api.handle]

/-- The derived `Hash` of `RenderOutputType`: variant discriminant, then
the payload's hash. -/
def hashRenderOutputType : RenderOutputType → List Nat
  | .CanvasFrame s => 0 :: hashSurfaceFrame s
  | .Texture t => 1 :: [t]
  | .Svg svg image_data =>
    2 :: hashString svg ++ hashVec (fun p => [p.1, p.2]) image_data
  | .Image bytes => 3 :: hashVec (fun b => [b]) bytes

/-- The manual `Hash for RenderOutput` in `value.rs`: hashes only
`self.data`, never the metadata. -/
def RenderOutput.hashStream (r : RenderOutput) : List Nat :=
  hashRenderOutputType r.data

/-- `core::mem::discriminant(self)` of a `TaggedValue`, hashed first by
the manual `Hash` implementation: a value distinct per variant (the
declaration index in the model). -/
def TaggedValue.disc : TaggedValue → Nat
  | .None => 0
  | .F64 _ => 1
  | .U32 _ => 2
  | .U64 _ => 3
  | .Bool _ => 4
  | .String _ => 5
  | .DVec2 _ => 6
  | .DAffine2 _ => 7
  | .OptionalF64 _ => 8
  | .OptionalDVec2 _ => 9
  | .VecF64 _ => 10
  | .VecU64 _ => 11
  | .VecDVec2 _ => 12
  | .F64Array4 _ => 13
  | .Color _ => 14
  | .OptionalColor _ => 15
  | .Fill _ => 16
  | .BlendMode _ => 17
  | .ReferencePoint _ => 18
  | .RenderOutput _ => 19
  | .SurfaceFrame _ => 20
  | .EditorApi _ => 21

/-- The payload writes of the manual `Hash for TaggedValue`
(`x.hash(state)` per variant; `Self::None` writes nothing).  Payload
types without a std `Hash` (floats and everything containing them)
resolve to the `FakeHash` implementations; the rest use their ordinary
`Hash`. -/
def TaggedValue.payloadHash : TaggedValue → List Nat
  | .None => []
  | .F64 x => hashF64 x
  | .U32 x => hashUInt x
  | .U64 x => hashUInt x
  | .Bool b => hashBool b
  | .String s => hashString s
  | .DVec2 v => hashDVec2 v
  | .DAffine2 m => hashDAffine2 m
  | .OptionalF64 o => hashOpt hashF64 o
  | .OptionalDVec2 o => hashOpt hashDVec2 o
  | .VecF64 xs => hashVec hashF64 xs
  | .VecU64 xs => hashVec hashUInt xs
  | .VecDVec2 xs => hashVec hashDVec2 xs
  | .F64Array4 a => hashArray4 a
  | .Color c => hashColor c
  | .OptionalColor o => hashOpt hashColor o
  | .Fill f => hashFill f
  | .BlendMode b => hashBlendMode b
  | .ReferencePoint p => hashReferencePoint p
  | .RenderOutput r => r.hashStream
  | .SurfaceFrame s => hashSurfaceFrame s
  | .EditorApi api => hashWasmEditorApi api

/-- The manual `Hash for TaggedValue` in `value.rs`:
`core::mem::discriminant(self).hash(state)` first, then the payload's
hash. -/
def TaggedValue.hashStream (v : TaggedValue) : List Nat :=
  v.disc :: v.payloadHash

/-- `str::split(',')` on the character list of a string: the pieces
between commas (like the Rust iterator, it always yields at least one
piece, and a trailing separator yields a final empty piece). -/
def splitComma : List Char → List (List Char)
  | [] => [[]]
  | c :: rest =>
    if c = ',' then [] :: splitComma rest
    else
      match splitComma rest with
      | piece :: pieces => (c :: piece) :: pieces
      | [] => [[c]]

/-- `str::split("::")` on the character list of a string: pieces between
non-overlapping occurrences of the two-character separator, scanned left
to right. -/
def splitDoubleColon : List Char → List (List Char)
  | [] => [[]]
  | [c] => [[c]]
  | c1 :: c2 :: rest =>
    if c1 = ':' ∧ c2 = ':' then [] :: splitDoubleColon rest
    else
      match splitDoubleColon (c2 :: rest) with
      | piece :: pieces => (c1 :: piece) :: pieces
      | [] => [[c1]]

/-- `str::trim`: drop whitespace from both ends. -/
def rustTrim (l : List Char) : List Char :=
  ((l.dropWhile Char.isWhitespace).reverse.dropWhile Char.isWhitespace).reverse

/-- `str::trim_matches(c)`: drop every leading and trailing occurrence of
the character. -/
def rustTrimMatches (c : Char) (l : List Char) : List Char :=
  ((l.dropWhile (· = c)).reverse.dropWhile (· = c)).reverse

/-- `str::trim_start_matches(c)`: drop every leading occurrence of the
character. -/
def rustTrimStartMatches (c : Char) (l : List Char) : List Char :=
  l.dropWhile (· = c)

/-- The numeric value of a decimal digit list, or `none` if the list is
empty or contains a non-digit. -/
def digitsToNat : List Char → Option Nat
  | [] => none
  | l =>
    l.foldl
      (fun acc c =>
        acc.bind fun n => if c.isDigit then some (n * 10 + (c.toNat - 48)) else none)
      (some 0)

/-- The floor of the base-2 logarithm, capped at 63 (the callers below
reject any argument whose logarithm reaches 53, so the cap is never
observable). -/
def floorLog2 (n : Nat) : Nat :=
  (List.range 64).foldl (fun acc k => if 2 ^ k ≤ n then k else acc) 0

/-- IEEE-754 double bit pattern of a natural number, defined on the
exactly-representable range `n < 2 ^ 53` (`none` beyond it, where
rounding would occur). -/
def natToF64bits (n : Nat) : Option Nat :=
  if n = 0 then some 0
  else
    let k := floorLog2 n
    if k ≤ 52 then some ((1023 + k) * 2 ^ 52 + (n * 2 ^ (52 - k) - 2 ^ 52))
    else none

/-- `<f64 as FromStr>::from_str`, modelled on the subdomain the claims
exercise: an unsigned decimal integer literal parses to the bit pattern
of its exact double value; every other string is treated as
unparseable.  (The full Rust float grammar — signs, fractions,
exponents, `inf`, `NaN` — is outside the model.) -/
def parseF64 (s : String) : Option Nat :=
  (digitsToNat s.data).bind natToF64bits

/-- `<u64 as FromStr>::from_str`, modelled on unsigned decimal literals
with the `u64` range check. -/
def parseU64 (s : String) : Option Nat :=
  (digitsToNat s.data).bind fun n => if n < 2 ^ 64 then some n else none

/-- `<u32 as FromStr>::from_str`, modelled on unsigned decimal literals
with the `u32` range check. -/
def parseU32 (s : String) : Option Nat :=
  (digitsToNat s.data).bind fun n => if n < 2 ^ 32 then some n else none

/-- `<bool as FromStr>::from_str`: exactly `true` or `false`. -/
def parseBool (s : String) : Option Bool :=
  if s = "true" then some true else if s = "false" then some false else none

/-- The `to_dvec2` helper of `from_primitive_string`: split on commas,
take the first component, trim and parse it, then the second likewise;
any later components are never requested. -/
def to_dvec2 (input : String) : Option DVec2 :=
  match splitComma input.data with
  | [] => none
  | p1 :: rest =>
    match parseF64 (String.mk (rustTrim p1)) with
    | none => none
    | some x =>
      match rest with
      | [] => none
      | p2 :: _ =>
        match parseF64 (String.mk (rustTrim p2)) with
        | none => none
        | some y => some (DVec2.new x y)

/-- The value of a hexadecimal digit, if the character is one (both
cases accepted). -/
def hexDigitVal (c : Char) : Option Nat :=
  if c.isDigit then some (c.toNat - 48)
  else if 97 ≤ c.toNat ∧ c.toNat ≤ 102 then some (c.toNat - 87)
  else if 65 ≤ c.toNat ∧ c.toNat ≤ 70 then some (c.toNat - 55)
  else none

/-- A two-hex-digit byte. -/
def hexByte (c1 c2 : Char) : Option Nat :=
  (hexDigitVal c1).bind fun h => (hexDigitVal c2).map fun l => h * 16 + l

/-- Modelled from the spec: `Color::from_rgb_str` (outside `src/`) —
six hex digits giving the red, green and blue channels, alpha fully
opaque. -/
def Color.from_rgb_str (s : String) : Option Color :=
  match s.data with
  | [r1, r2, g1, g2, b1, b2] =>
    (hexByte r1 r2).bind fun r =>
      (hexByte g1 g2).bind fun g =>
        (hexByte b1 b2).map fun b => Color.mk r g b 255
  | _ => none

/-- Modelled from the spec: `Color::from_rgba_str` (outside `src/`) —
eight hex digits giving the red, green, blue and alpha channels. -/
def Color.from_rgba_str (s : String) : Option Color :=
  match s.data with
  | [r1, r2, g1, g2, b1, b2, a1, a2] =>
    (hexByte r1 r2).bind fun r =>
      (hexByte g1 g2).bind fun g =>
        (hexByte b1 b2).bind fun b =>
          (hexByte a1 a2).map fun a => Color.mk r g b a
  | _ => none

/-- The `to_color` helper of `from_primitive_string`.  A quoted string
(leading and trailing `"` characters) is trimmed, stripped of quotes and
a leading `#`, and read as 6 or 8 hex digits (other lengths log an error
and yield no value); otherwise a `Color::<NAME>` constant reference is
resolved against the fixed palette; anything else logs an error and
yields no value. -/
def to_color (input : String) : Option Color :=
  if input.data.head? = some '"' ∧ input.data.getLast? = some '"' then
    let color :=
      rustTrimStartMatches '#' (rustTrim (rustTrimMatches '"' (rustTrim input.data)))
    if color.length = 6 then Color.from_rgb_str (String.mk color)
    else if color.length = 8 then Color.from_rgba_str (String.mk color)
    else none
  else
    match splitDoubleColon input.data with
    | first :: second :: _ =>
      if String.mk (rustTrim first) = "Color" then
        match String.mk (rustTrim second) with
        | "BLACK" => some Color.BLACK
        | "WHITE" => some Color.WHITE
        | "RED" => some Color.RED
        | "GREEN" => some Color.GREEN
        | "BLUE" => some Color.BLUE
        | "YELLOW" => some Color.YELLOW
        | "CYAN" => some Color.CYAN
        | "MAGENTA" => some Color.MAGENTA
        | "TRANSPARENT" => some Color.TRANSPARENT
        | _ => none
      else none
    | _ => none

/-- The `to_reference_point` helper of `from_primitive_string`: a
`ReferencePoint::<NAME>` constant reference resolved against the named
positions; anything else logs an error and yields no value. -/
def to_reference_point (input : String) : Option ReferencePoint :=
  match splitDoubleColon input.data with
  | first :: second :: _ =>
    if String.mk (rustTrim first) = "ReferencePoint" then
      match String.mk (rustTrim second) with
      | "None" => some .RPNone
      | "TopLeft" => some .TopLeft
      | "TopCenter" => some .TopCenter
      | "TopRight" => some .TopRight
      | "CenterLeft" => some .CenterLeft
      | "Center" => some .Center
      | "CenterRight" => some .CenterRight
      | "BottomLeft" => some .BottomLeft
      | "BottomCenter" => some .BottomCenter
      | "BottomRight" => some .BottomRight
      | _ => none
    else none
  | _ => none

/-- `TaggedValue::from_primitive_string`: `Generic` never parses; a
`Concrete` descriptor must carry a `TypeId`, which selects the per-type
grammar (unit ignores the text; `String` always succeeds verbatim;
numeric and boolean types use `FromStr`; `DVec2` uses `to_dvec2`;
`Color`, `Option<Color>` and `Fill` use `to_color`, the latter two
wrapping the color; `ReferencePoint` uses `to_reference_point`; every
other identity yields no value); `Fn` recurses into its output and
`Future` into its wrapped type.  Failure is always the `none` value,
never a panic. -/
def TaggedValue.from_primitive_string (string : RustString) (ty : Ty) : Option TaggedValue :=
  match ty with
  | .Generic _ => none
  | .Concrete d =>
    match d.id with
    | none => none
    | some internal_id =>
      if internal_id = .unit then some .None
      else if internal_id = .string then some (.String string)
      else if internal_id = .f64 then (parseF64 string).map .F64
      else if internal_id = .u64 then (parseU64 string).map .U64
      else if internal_id = .u32 then (parseU32 string).map .U32
      else if internal_id = .dvec2 then (to_dvec2 string).map .DVec2
      else if internal_id = .bool then (parseBool string).map .Bool
      else if internal_id = .color then (to_color string).map .Color
      else if internal_id = .optColor then
        (to_color string).map fun color => .OptionalColor (some color)
      else if internal_id = .fill then
        (to_color string).map fun color => .Fill (Fill.solid color)
      else if internal_id = .referencePoint then
        (to_reference_point string).map .ReferencePoint
      else none
  | .Fn _ out => TaggedValue.from_primitive_string string out
  | .Future fut => TaggedValue.from_primitive_string string fut

/-- The exact integer magnitude of a double given its low 63 bits, when
the double is a non-negative integer (`none` for fractional, subnormal
and non-finite magnitudes). -/
def f64bitsMagNat (mag : Nat) : Option Nat :=
  if mag = 0 then some 0
  else
    let e := mag / 2 ^ 52
    let m := mag % 2 ^ 52
    if e = 0 then none
    else if e < 1023 then none
    else if e ≤ 1023 + 52 then
      if m % 2 ^ (52 - (e - 1023)) = 0 then
        some ((2 ^ 52 + m) / 2 ^ (52 - (e - 1023)))
      else none
    else if e < 2047 then some ((2 ^ 52 + m) * 2 ^ (e - 1023 - 52))
    else none

/-- `<f64 as Display>::to_string`, modelled on the subdomain the claims
exercise: integral values print their decimal digits (a negative sign
first), infinities print `inf`, not-a-number prints `NaN`, and
non-integral finite values are summarised by a fixed placeholder (their
Rust decimal rendering is outside the model). -/
def f64bitsToString (bits : Nat) : String :=
  let sign := bits / 2 ^ 63
  let e := bits / 2 ^ 52 % 2 ^ 11
  if e = 2047 then
    if bits % 2 ^ 52 ≠ 0 then "NaN" else if sign = 1 then "-inf" else "inf"
  else
    match f64bitsMagNat (bits % 2 ^ 63) with
    | some n => (if sign = 1 then "-" else "") ++ toString n
    | none => "<non-integral>"

/-- The `Debug` rendering of a `Color` used by `to_primitive_string`
(`format!("Color {x:?}")`); the concrete form comes from the external
derive and is modelled as the four channels in struct-debug style. -/
def colorDebugString (c : Color) : String :=
  "\x7b r: " ++ toString c.r ++ ", g: " ++ toString c.g ++ ", b: " ++
    toString c.b ++ ", a: " ++ toString c.a ++ " \x7d"

/-- `TaggedValue::to_primitive_string`: renders the unit variant, quoted
strings, suffixed numbers, booleans, `BlendMode::` constants and the
color debug form; every other variant hits
`panic!("Cannot convert to primitive string")`, modelled as `none`. -/
def TaggedValue.to_primitive_string : TaggedValue → Option RustString
  | .None => some "()"
  | .String x => some ("\"" ++ x ++ "\"")
  | .U32 x => some (toString x ++ "_u32")
  | .U64 x => some (toString x ++ "_u64")
  | .F64 x => some (f64bitsToString x ++ "_f64")
  | .Bool x => some (toString x)
  | .BlendMode x => some ("BlendMode::" ++ x.displayName)
  | .Color x => some ("Color " ++ colorDebugString x)
  | _ => none

/-- `FrameBufferRef` from `render.rs`: a borrowed byte buffer with pixel
dimensions. -/
structure FrameBufferRef where
  buffer : List Nat
  width : Nat
  height : Nat
deriving DecidableEq, Repr

/-- `FrameBufferError` from `render.rs`. -/
inductive FrameBufferError where
  | InvalidSize (buffer_size expected_size width height : Nat) : FrameBufferError
deriving DecidableEq, Repr

/-- `FrameBufferRef::validate_size`: the buffer length must be exactly
`width * height * 4` (four 8-bit channels per pixel); otherwise an
`InvalidSize` error carrying the actual length, the expected length and
the dimensions. -/
def FrameBufferRef.validate_size (fb : FrameBufferRef) : Except FrameBufferError Unit :=
  if fb.buffer.length ≠ fb.width * fb.height * 4 then
    .error (.InvalidSize fb.buffer.length (fb.width * fb.height * 4) fb.width fb.height)
  else
    .ok ()

/-- `FrameBufferRef::new`: build the frame buffer, validate its size, and
return it on success. -/
def FrameBufferRef.new (buffer : List Nat) (width height : Nat) :
    Except FrameBufferError FrameBufferRef :=
  let fb : FrameBufferRef := ⟨buffer, width, height⟩
  match fb.validate_size with
  | .error e => .error e
  | .ok _ => .ok fb

/-- The runtime type identities `from_type` recognizes: the unit type and
each registered variant's payload type, in the arm order of its match
(`RenderOutput`, `SurfaceFrame` and the `EditorApi` payload have no
default arm). -/
def fromTypeIds : List RTy :=
  [.unit, .f64, .u32, .u64, .bool, .string, .dvec2, .daffine2, .optF64,
   .optDVec2, .vecF64, .vecU64, .vecDVec2, .f64array4, .color, .optColor,
   .fill, .blendMode, .referencePoint]

theorem flatMap_hashF64_eq (xs : List Nat) : xs.flatMap hashF64 = xs := by
  induction xs with
  | nil => rfl
  | cons x rest ih => simp [List.flatMap_cons, hashF64, ih]

/-- C2: hashing a `TaggedValue` is deterministic and, for float payloads,
driven purely by the raw bit pattern: two `F64` values feed the hasher the
same stream exactly when their bit patterns coincide (so any fixed
not-a-number pattern hashes identically both times, and `F64(1.0)` always
matches itself), while `F64(1.0)` and `F64(1.0 + f64::EPSILON)` — adjacent
bit patterns — never produce the same stream. -/
theorem f64_hash_bit_pattern :
    (∀ x y : Nat,
      TaggedValue.hashStream (.F64 x) = TaggedValue.hashStream (.F64 y) ↔ x = y) ∧
    TaggedValue.hashStream (.F64 nanBits) = TaggedValue.hashStream (.F64 nanBits) ∧
    TaggedValue.hashStream (.F64 oneBits) ≠
      TaggedValue.hashStream (.F64 onePlusEpsilonBits) := by
  refine ⟨fun x y => ?_, rfl, by decide⟩
  simp [TaggedValue.hashStream, TaggedValue.payloadHash, TaggedValue.disc, hashF64]

/-- C3: the variant discriminant is fed to the hasher before the payload,
so values of different variants always produce different hash input
streams — in particular `F64(0.0)` versus `U64(0)`, whose payload bit
patterns coincide; an `Option` payload hashes a 1-or-0 discriminant
followed by the inner hash if present, and a `Vec` payload hashes its
length followed by each element's hash in order. -/
theorem discriminant_separates_hash :
    (∀ v w : TaggedValue, v.disc ≠ w.disc →
      TaggedValue.hashStream v ≠ TaggedValue.hashStream w) ∧
    TaggedValue.hashStream (.F64 0) ≠ TaggedValue.hashStream (.U64 0) ∧
    (∀ x : Nat,
      TaggedValue.hashStream (.OptionalF64 (some x)) =
        (TaggedValue.OptionalF64 (some x)).disc :: 1 :: hashF64 x) ∧
    TaggedValue.hashStream (.OptionalF64 none) =
      (TaggedValue.OptionalF64 none).disc :: [0] ∧
    (∀ xs : List Nat,
      TaggedValue.hashStream (.VecF64 xs) =
        (TaggedValue.VecF64 xs).disc :: xs.length :: xs) := by
  refine ⟨fun v w hd he => ?_, by decide, fun x => rfl, rfl, fun xs => ?_⟩
  · apply hd
    simp only [TaggedValue.hashStream, List.cons.injEq] at he
    exact he.1
  · simp [TaggedValue.hashStream, TaggedValue.payloadHash, hashVec,
      flatMap_hashF64_eq]

theorem discriminant_separates_hash_witness :
    TaggedValue.hashStream (.Bool true) ≠ TaggedValue.hashStream (.U32 1) :=
  discriminant_separates_hash.1 _ _ (by decide)

/-- C8: the hash of a `RenderOutput` depends only on its `data` field;
any two metadata values leave the stream unchanged, both at the
`RenderOutput` level and through the enclosing `TaggedValue` variant. -/
theorem render_output_hash_ignores_metadata :
    (∀ (d : RenderOutputType) (m1 m2 : RenderMetadata),
      RenderOutput.hashStream ⟨d, m1⟩ = RenderOutput.hashStream ⟨d, m2⟩) ∧
    (∀ (d : RenderOutputType) (m1 m2 : RenderMetadata),
      TaggedValue.hashStream (.RenderOutput ⟨d, m1⟩) =
        TaggedValue.hashStream (.RenderOutput ⟨d, m2⟩)) :=
  ⟨fun _ _ _ => rfl, fun _ _ _ => rfl⟩

/-- C1 counterexample: the `EditorApi` variant erases to an
`Arc<WasmEditorApi>` payload for which neither recovery function has a
match arm, so its round trip fails on both the owned and the
shared-reference path — the claim's universal quantification over all
variants is false. -/
theorem editor_api_roundtrip_fails :
    TaggedValue.try_from_any (TaggedValue.to_dynany (.EditorApi ⟨0⟩)) ≠
      .ok (.EditorApi ⟨0⟩) ∧
    TaggedValue.try_from_std_any_ref (TaggedValue.to_any (.EditorApi ⟨0⟩)) ≠
      .ok (.EditorApi ⟨0⟩) := by
  refine ⟨?_, ?_⟩ <;> intro h <;> simp [TaggedValue.try_from_any,
    TaggedValue.try_from_std_any_ref, TaggedValue.to_dynany, TaggedValue.to_any,
    DynBox.typeId] at h

/-- C1 (amended): for every variant of `TaggedValue` except `EditorApi`,
erasing a value and recovering it yields the value again, both via
`to_dynany` followed by `try_from_any` (owned path) and via `to_any`
followed by `try_from_std_any_ref` (shared-reference path); the
`EditorApi` variant is the one exception, failing with an error on both
paths. -/
theorem tagged_value_roundtrip (v : TaggedValue)
    (h : ∀ api : WasmEditorApi, v ≠ .EditorApi api) :
    TaggedValue.try_from_any (TaggedValue.to_dynany v) = .ok v ∧
    TaggedValue.try_from_std_any_ref (TaggedValue.to_any v) = .ok v := by
  cases v <;> first
    | exact (h _ rfl).elim
    | exact ⟨rfl, rfl⟩

theorem tagged_value_roundtrip_witness :
    TaggedValue.try_from_any (TaggedValue.to_dynany (.F64 oneBits)) =
      .ok (.F64 oneBits) ∧
    TaggedValue.try_from_std_any_ref (TaggedValue.to_any (.F64 oneBits)) =
      .ok (.F64 oneBits) :=
  tagged_value_roundtrip (.F64 oneBits) (fun api h => by cases h)

/-- C4 counterexample: `try_from_std_any_ref` formats its error with
`std::any::type_name_of_val` applied to the `&dyn Any` argument, which
yields the *static* name `dyn core::any::Any`; two erased containers of
different unregistered runtime types therefore produce the identical
error message, so the message cannot name the unmatched runtime type. -/
theorem ref_error_ignores_runtime_type :
    TaggedValue.try_from_std_any_ref (.foreign "graphite_test::ForeignStruct") =
      TaggedValue.try_from_std_any_ref (.foreign "other_crate::Unrelated") ∧
    TaggedValue.try_from_std_any_ref (.foreign "graphite_test::ForeignStruct") =
      .error "Cannot convert \"dyn core::any::Any\" to TaggedValue" :=
  ⟨rfl, rfl⟩

/-- C4 (amended): both recovery functions match the erased container's
runtime type identity against the fixed arm order — unit first, then the
registered variants in declaration order, then `RenderOutput` and
`SurfaceFrame` — succeeding exactly on those identities and constructing
the variant whose type descriptor equals the container's runtime type
(with the shared-reference path cloning the same result the owned path
produces); on no match neither panics: `try_from_any` returns an `Err`
naming the unmatched runtime type, while `try_from_std_any_ref` returns
an `Err` carrying the fixed static name `dyn core::any::Any` rather than
the runtime type's name. -/
theorem erased_recovery_matching :
    (∀ b : DynBox,
      (TaggedValue.try_from_any b).isOk ↔ b.typeId ∈ tryFromAnyOrder) ∧
    (∀ (b : DynBox) (v : TaggedValue),
      TaggedValue.try_from_any b = .ok v → v.ty = concreteOf b.typeId) ∧
    (∀ b : DynBox, (TaggedValue.try_from_any b).isOk →
      TaggedValue.try_from_std_any_ref b = TaggedValue.try_from_any b) ∧
    (∀ name : String, TaggedValue.try_from_any (.foreign name) =
      .error ("Cannot convert \"" ++ name ++ "\" to TaggedValue")) ∧
    (∀ name : String, TaggedValue.try_from_std_any_ref (.foreign name) =
      .error ("Cannot convert \"" ++ dynAnyStaticName ++ "\" to TaggedValue")) := by
  refine ⟨fun b => ?_, fun b v h => ?_, fun b h => ?_, fun name => rfl,
    fun name => rfl⟩
  · cases b <;> simp [TaggedValue.try_from_any, DynBox.typeId, tryFromAnyOrder,
      Except.isOk, Except.toBool]
  · cases b <;>
      simp only [TaggedValue.try_from_any, DynBox.typeId] at h <;>
      first
        | (cases h; rfl)
        | (simp at h)
  · cases b <;> first
      | rfl
      | simp [TaggedValue.try_from_any, DynBox.typeId, Except.isOk, Except.toBool] at h

theorem erased_recovery_matching_witness :
    TaggedValue.try_from_std_any_ref (.u32 5) =
      TaggedValue.try_from_any (.u32 5) :=
  erased_recovery_matching.2.2.1 (.u32 5) (by decide)

/-- C5: for every concrete type descriptor the registry recognizes,
`from_type` returns a default value whose `ty()` equals the input
descriptor; it returns `None` for generic descriptors, for descriptors
lacking a type identity, and for unrecognized concrete identities
(including foreign types and the report variants, which have no default
arm); it recurses through `Fn` and `Future` wrappers to the wrapped
output descriptor; and `from_type_or_none` is total, substituting the
`TaggedValue::None` variant exactly when `from_type` has no answer. -/
theorem from_type_default_construction :
    (∀ t : RTy, t ∈ fromTypeIds →
      ∃ v : TaggedValue,
        TaggedValue.from_type (concreteOf t) = some v ∧ v.ty = concreteOf t) ∧
    (∀ s : String, TaggedValue.from_type (.Generic s) = none) ∧
    (∀ d : TypeDescriptor, d.id = none →
      TaggedValue.from_type (.Concrete d) = none) ∧
    (∀ t : RTy, t ∉ fromTypeIds → TaggedValue.from_type (concreteOf t) = none) ∧
    (∀ a b : Ty, TaggedValue.from_type (.Fn a b) = TaggedValue.from_type b) ∧
    (∀ t : Ty, TaggedValue.from_type (.Future t) = TaggedValue.from_type t) ∧
    (∀ ty : Ty,
      (TaggedValue.from_type ty = none →
        TaggedValue.from_type_or_none ty = .None) ∧
      (∀ v : TaggedValue, TaggedValue.from_type ty = some v →
        TaggedValue.from_type_or_none ty = v)) := by
  refine ⟨fun t ht => ?_, fun s => rfl, fun d hd => ?_, fun t ht => ?_,
    fun a b => rfl, fun t => rfl, fun ty => ⟨fun h => ?_, fun v h => ?_⟩⟩
  · cases t <;> first
      | exact ⟨_, rfl, rfl⟩
      | simp [fromTypeIds] at ht
  · simp [TaggedValue.from_type, hd]
  · cases t <;> first
      | rfl
      | simp [fromTypeIds] at ht
  · simp [TaggedValue.from_type_or_none, h]
  · simp [TaggedValue.from_type_or_none, h]

theorem from_type_default_construction_witness :
    ∃ v : TaggedValue,
      TaggedValue.from_type (concreteOf .dvec2) = some v ∧
        v.ty = concreteOf .dvec2 :=
  from_type_default_construction.1 .dvec2 (by decide)

/-- C6: `from_primitive_string` parses per the per-type grammar:
`"1,2"` against the `DVec2` descriptor yields the vector `(1.0, 2.0)`;
the quoted hex literal against the `Color` descriptor yields opaque red;
`Color::BLACK` yields black; garbage text yields `none` (the function is
total — failure is a value, never a panic); and `Fn` / `Future`
descriptors recurse to their output type. -/
theorem from_primitive_string_grammar :
    TaggedValue.from_primitive_string "1,2" (concreteOf .dvec2) =
      some (.DVec2 ⟨oneBits, twoBits⟩) ∧
    TaggedValue.from_primitive_string "\"#ff0000ff\"" (concreteOf .color) =
      some (.Color Color.RED) ∧
    TaggedValue.from_primitive_string "Color::BLACK" (concreteOf .color) =
      some (.Color Color.BLACK) ∧
    (∀ (s : String) (a b : Ty),
      TaggedValue.from_primitive_string s (.Fn a b) =
        TaggedValue.from_primitive_string s b) ∧
    (∀ (s : String) (t : Ty),
      TaggedValue.from_primitive_string s (.Future t) =
        TaggedValue.from_primitive_string s t) ∧
    (∀ (s name : String),
      TaggedValue.from_primitive_string s (.Generic name) = none) ∧
    TaggedValue.from_primitive_string "garbage" (concreteOf .color) = none ∧
    TaggedValue.from_primitive_string "garbage" (concreteOf .dvec2) = none ∧
    TaggedValue.from_primitive_string "garbage" (concreteOf .f64) = none ∧
    TaggedValue.from_primitive_string "garbage" (concreteOf .u64) = none ∧
    TaggedValue.from_primitive_string "garbage" (concreteOf .u32) = none ∧
    TaggedValue.from_primitive_string "garbage" (concreteOf .bool) = none ∧
    TaggedValue.from_primitive_string "garbage" (concreteOf .optColor) = none ∧
    TaggedValue.from_primitive_string "garbage" (concreteOf .fill) = none ∧
    TaggedValue.from_primitive_string "garbage" (concreteOf .referencePoint) =
      none := by
  refine ⟨rfl, rfl, rfl, fun s a b => rfl, fun s t => rfl,
    fun s name => rfl, rfl, rfl, rfl, rfl, rfl, rfl, rfl, rfl, rfl⟩

/-- C7: `FrameBufferRef::new` succeeds exactly when the buffer length is
`width * height * 4`, otherwise returning an `InvalidSize` error carrying
the actual and expected sizes; a 64-byte buffer at 4 by 4 succeeds and a
63-byte buffer fails reporting expected 64, actual 63. -/
theorem frame_buffer_validation :
    (∀ (buffer : List Nat) (width height : Nat),
      (FrameBufferRef.new buffer width height).isOk ↔
        buffer.length = width * height * 4) ∧
    (∀ (buffer : List Nat) (width height : Nat),
      buffer.length ≠ width * height * 4 →
        FrameBufferRef.new buffer width height =
          .error (.InvalidSize buffer.length (width * height * 4) width height)) ∧
    FrameBufferRef.new (List.replicate 64 0) 4 4 =
      .ok ⟨List.replicate 64 0, 4, 4⟩ ∧
    FrameBufferRef.new (List.replicate 63 0) 4 4 =
      .error (.InvalidSize 63 64 4 4) := by
  refine ⟨fun buffer width height => ?_, fun buffer width height h => ?_,
    rfl, rfl⟩
  · by_cases h : buffer.length = width * height * 4 <;>
      simp [FrameBufferRef.new, FrameBufferRef.validate_size, h, Except.isOk,
        Except.toBool]
  · simp [FrameBufferRef.new, FrameBufferRef.validate_size, h]

theorem frame_buffer_validation_witness :
    FrameBufferRef.new [0, 0, 0] 1 1 = .error (.InvalidSize 3 4 1 1) :=
  frame_buffer_validation.2.1 [0, 0, 0] 1 1 (by decide)

/-- C9: `to_primitive_string` produces a string for exactly the
primitive-representable variants — the unit form for `None`, quoted
strings, decimal numbers with `_u32` / `_u64` / `_f64` type suffixes,
boolean literals, `BlendMode::` constants, and the color debug form —
and hits the `panic!` (modelled as `none`) on every other variant, such
as graphics data, optionals, sequences and caches. -/
theorem to_primitive_string_variants :
    TaggedValue.to_primitive_string .None = some "()" ∧
    (∀ s : String,
      TaggedValue.to_primitive_string (.String s) = some ("\"" ++ s ++ "\"")) ∧
    (∀ x : Nat,
      TaggedValue.to_primitive_string (.U32 x) = some (toString x ++ "_u32")) ∧
    (∀ x : Nat,
      TaggedValue.to_primitive_string (.U64 x) = some (toString x ++ "_u64")) ∧
    (∀ x : Nat,
      TaggedValue.to_primitive_string (.F64 x) =
        some (f64bitsToString x ++ "_f64")) ∧
    (∀ b : Bool, TaggedValue.to_primitive_string (.Bool b) = some (toString b)) ∧
    (∀ b : BlendMode,
      TaggedValue.to_primitive_string (.BlendMode b) =
        some ("BlendMode::" ++ b.displayName)) ∧
    (∀ c : Color,
      TaggedValue.to_primitive_string (.Color c) =
        some ("Color " ++ colorDebugString c)) ∧
    (∀ v : DVec2, TaggedValue.to_primitive_string (.DVec2 v) = none) ∧
    (∀ m : DAffine2, TaggedValue.to_primitive_string (.DAffine2 m) = none) ∧
    (∀ o : Option Nat, TaggedValue.to_primitive_string (.OptionalF64 o) = none) ∧
    (∀ o : Option DVec2,
      TaggedValue.to_primitive_string (.OptionalDVec2 o) = none) ∧
    (∀ xs : List Nat, TaggedValue.to_primitive_string (.VecF64 xs) = none) ∧
    (∀ xs : List Nat, TaggedValue.to_primitive_string (.VecU64 xs) = none) ∧
    (∀ xs : List DVec2, TaggedValue.to_primitive_string (.VecDVec2 xs) = none) ∧
    (∀ a : F64Array4, TaggedValue.to_primitive_string (.F64Array4 a) = none) ∧
    (∀ o : Option Color,
      TaggedValue.to_primitive_string (.OptionalColor o) = none) ∧
    (∀ f : Fill, TaggedValue.to_primitive_string (.Fill f) = none) ∧
    (∀ p : ReferencePoint,
      TaggedValue.to_primitive_string (.ReferencePoint p) = none) ∧
    (∀ r : RenderOutput, TaggedValue.to_primitive_string (.RenderOutput r) = none) ∧
    (∀ s : SurfaceFrame, TaggedValue.to_primitive_string (.SurfaceFrame s) = none) ∧
    (∀ api : WasmEditorApi,
      TaggedValue.to_primitive_string (.EditorApi api) = none) :=
  ⟨rfl, fun _ => rfl, fun _ => rfl, fun _ => rfl, fun _ => rfl, fun _ => rfl,
   fun _ => rfl, fun _ => rfl, fun _ => rfl, fun _ => rfl, fun _ => rfl,
   fun _ => rfl, fun _ => rfl, fun _ => rfl, fun _ => rfl, fun _ => rfl,
   fun _ => rfl, fun _ => rfl, fun _ => rfl, fun _ => rfl, fun _ => rfl,
   fun _ => rfl⟩

theorem splitComma_of_not_mem (l : List Char) (h : ',' ∉ l) :
    splitComma l = [l] := by
  induction l with
  | nil => rfl
  | cons c rest ih =>
    simp only [List.mem_cons, not_or] at h
    have hc : ¬c = ',' := fun he => h.1 he.symm
    simp [splitComma, hc, ih h.2]

theorem splitComma_append (a r : List Char) (h : ',' ∉ a) :
    splitComma (a ++ (',' :: r)) = a :: splitComma r := by
  induction a with
  | nil => simp [splitComma]
  | cons c rest ih =>
    simp only [List.mem_cons, not_or] at h
    have hc : ¬c = ',' := fun he => h.1 he.symm
    simp [splitComma, hc, ih h.2]

/-- C10: parsing against a `DVec2` descriptor reads only the first two
comma-separated components, trimming each: whenever the first two
comma-free components parse, everything after the second comma is
silently ignored (so `1, 2, garbage` parses to the vector `(1, 2)`),
while an input holding fewer than two parseable components — no comma at
all, or an unparseable first or second component — yields no value. -/
theorem dvec2_parse_first_two_components :
    (∀ (a b rest : List Char) (x y : Nat),
      ',' ∉ a → ',' ∉ b →
      parseF64 (String.mk (rustTrim a)) = some x →
      parseF64 (String.mk (rustTrim b)) = some y →
      to_dvec2 (String.mk (a ++ (',' :: (b ++ (',' :: rest))))) =
        some ⟨x, y⟩) ∧
    (∀ l : List Char, ',' ∉ l → to_dvec2 (String.mk l) = none) ∧
    to_dvec2 "1, 2, garbage" = some ⟨oneBits, twoBits⟩ ∧
    TaggedValue.from_primitive_string "1, 2, garbage" (concreteOf .dvec2) =
      some (.DVec2 ⟨oneBits, twoBits⟩) ∧
    to_dvec2 "1,garbage" = none ∧
    to_dvec2 "garbage,2" = none ∧
    to_dvec2 "1" = none := by
  refine ⟨fun a b rest x y ha hb hx hy => ?_, fun l h => ?_, rfl, rfl, rfl,
    rfl, rfl⟩
  · have hsplit :
        splitComma (a ++ (',' :: (b ++ (',' :: rest)))) =
          a :: b :: splitComma rest := by
      rw [splitComma_append _ _ ha, splitComma_append _ _ hb]
    simp only [to_dvec2, hsplit, hx, hy, DVec2.new]
  · rcases hp : parseF64 (String.mk (rustTrim l)) with _ | x <;>
      simp [to_dvec2, splitComma_of_not_mem l h, hp]

theorem dvec2_parse_first_two_components_witness :
    to_dvec2 (String.mk
      (['1'] ++ (',' :: ([' ', '2'] ++ (',' :: [' ', 'g', 'a', 'r', 'b', 'a', 'g', 'e']))))) =
      some ⟨oneBits, twoBits⟩ :=
  dvec2_parse_first_two_components.1 ['1'] [' ', '2']
    [' ', 'g', 'a', 'r', 'b', 'a', 'g', 'e'] oneBits twoBits (by decide)
    (by decide) (by decide) (by decide)
